import Mathlib

/-!
# Verification of the YTSync plugin client state machine

Shallow embedding of the `Player` class of the YTSync userscript
(src/player.ts, the variant with autoplay and client roster) together
with the small pieces of its collaborators that the verified properties
need.  Playback positions (JS numbers holding seconds) are embedded as
rationals; a stringified-seconds payload is embedded as the result of JS
`parseFloat` on it: `some t` for a string parsing to the number `t`,
`none` for a string (such as "abc") whose parse is NaN.  DOM mutations
performed by the `YTHTMLUtil` helpers are reflected in the state fields
that mirror them (the queue panel contents, the selected attribute, the
autoplay toggle); calls into the external YouTube player and the
websocket are recorded as effects.
-/

/-- `Video` record: `{ videoId, title, byline }` (src/interface, used
throughout the player). -/
structure Video where
  videoId : String
  title : String
  byline : String
deriving DecidableEq

/-- `Client` record: `{ socketId, ... }`, identity is `socketId`. -/
structure Client where
  socketId : String
  promoted : Bool
deriving DecidableEq

/-- The message kinds of the wire protocol (enum/message) that the
player sends or dispatches on. -/
inductive Message where
  | PLAY
  | PAUSE
  | SEEK
  | PLAY_VIDEO
  | ADD_TO_QUEUE
  | REMOVE_FROM_QUEUE
  | QUEUE
  | AUTOPLAY
  | CLIENTS
  | CLIENT_CONNECT
  | CLIENT_DISCONNECT
deriving DecidableEq

/-- A JSON payload value as the handler observes it.  `secondsStr`
carries the `parseFloat` result of a stringified-seconds payload
(`none` embeds NaN). -/
inductive Payload where
  | secondsStr (t : Option ℚ)
  | videoIdStr (s : String)
  | boolVal (b : Bool)
  | videoVal (v : Video)
  | queueVal (video : Option Video) (videos : List Video)
  | clientsVal (cs : List Client)
  | clientVal (c : Client)
deriving DecidableEq

/-- The external YT.PlayerState enumeration. -/
inductive YTPlayerState where
  | UNSTARTED
  | ENDED
  | PLAYING
  | PAUSED
  | BUFFERING
  | CUED
deriving DecidableEq

/-- Calls the player makes into its collaborators: websocket sends,
commands to the external YouTube player, SPA navigation, DOM cleanup,
error logging, and the one-time setup actions of `create`. -/
inductive Effect where
  | send (m : Message) (p : Payload)
  | seekTo (t : Option ℚ)
  | playVideoCmd
  | pauseVideoCmd
  | navigate (videoId : String)
  | removeUpnext
  | removeRelated
  | setLocationSearch
  | logError
  | getPlayerHook
  | addStateChangeListener
  | injectQueueShell
  | injectRoomInfoShell
  | startSeekSchedule
  | startUrlChangeSchedule
  | startQueueStoreSchedule
  | connectWs (sessionId : String)
deriving DecidableEq

/-- One entry of the queue panel: the rendered video element and
whether it carries the `selected` attribute. -/
structure QueueSlot where
  video : Video
  selected : Bool
deriving DecidableEq

/-- The query parameters of the window location that the player reads:
the `v` parameter and the session-id parameter. -/
structure UrlObservation where
  videoId : Option String
  sessionId : Option String
deriving DecidableEq

/-- The mutable state of one `Player` instance, together with the DOM
state its UI helpers maintain (queue panel slots, autoplay toggle) and
the externally observable window location. -/
structure PlayerState where
  /-- `this.ytPlayer !== null` -/
  ytPlayerCreated : Bool
  /-- `this.sessionId` (set by `connectWs`) -/
  sessionId : Option String
  /-- the external player state as `getPlayerState()` reports it -/
  playerState : YTPlayerState
  /-- the external player position as `getCurrentTime()` reports it -/
  currentTime : ℚ
  /-- the current window location query parameters -/
  url : UrlObservation
  /-- `this.autoplay` -/
  autoplay : Bool
  /-- the checked state of the autoplay paper-toggle in the room info -/
  autoplayToggle : Bool
  /-- the children of `this.queueItemsElement`, in order -/
  queue : List QueueSlot
  /-- `this.clients` (the room-info participant list mirrors it) -/
  clients : List Client
deriving DecidableEq

/-- `sendWsMessage(type, data)`: serialize and send, no state change. -/
def sendWsMessage (st : PlayerState) (type : Message) (data : Payload) :
    PlayerState × List Effect :=
  (st, [Effect.send type data])

/-- `sendWsRequestToAddToQueue(video)`: emit ADD_TO_QUEUE with the
video as data. -/
def sendWsRequestToAddToQueue (st : PlayerState) (video : Video) :
    PlayerState × List Effect :=
  sendWsMessage st Message.ADD_TO_QUEUE (Payload.videoVal video)

/-- The closure returned by `queueElementDeleteHandler(videoId)`: emit
REMOVE_FROM_QUEUE with the videoId as data. -/
def queueElementDeleteHandler (st : PlayerState) (videoId : String) :
    PlayerState × List Effect :=
  sendWsMessage st Message.REMOVE_FROM_QUEUE (Payload.videoIdStr videoId)

/-- `syncPlayerTime(videoTime, margin)`: seek the external player to
`videoTime` when `Math.abs(videoTime - getCurrentTime()) > margin`.
When `videoTime` is NaN (`none`) the comparison is false in JS, so no
seek happens. -/
def syncPlayerTime (videoTime : Option ℚ) (currentTime margin : ℚ) :
    List Effect :=
  match videoTime with
  | some t => if |t - currentTime| > margin then [Effect.seekTo (some t)] else []
  | none => []

/-- `addToQueue(video, selected)`: append one rendered slot to the
queue panel (visual only, nothing is sent). -/
def addToQueue (st : PlayerState) (video : Video) (selected : Bool) :
    PlayerState :=
  { st with queue := st.queue ++ [{ video := video, selected := selected }] }

/-- Whether a snapshot entry gets the selected flag:
`data.video !== null && video.videoId === data.video.videoId`. -/
def snapshotSelected (video : Option Video) (v : Video) : Bool :=
  match video with
  | none => false
  | some sv => v.videoId == sv.videoId

/-- `populateQueue(data)`: empty the queue panel, then `addToQueue`
each snapshot entry in order, selected as per `snapshotSelected`. -/
def populateQueue (st : PlayerState) (video : Option Video)
    (videos : List Video) : PlayerState :=
  videos.foldl (fun acc v => addToQueue acc v (snapshotSelected video v))
    { st with queue := [] }

/-- `removeFromQueue(video)`: `find('[videoId="..."]').remove()` — the
jQuery find matches every slot with that videoId and remove deletes
them all. -/
def removeFromQueue (st : PlayerState) (video : Video) : PlayerState :=
  { st with queue := st.queue.filter (fun s => !(s.video.videoId == video.videoId)) }

/-- `selectQueueElement(videoId)`: drop the selected attribute from all
children, then set it on every slot whose videoId matches. -/
def selectQueueElement (st : PlayerState) (videoId : String) : PlayerState :=
  { st with queue := st.queue.map (fun s => { s with selected := s.video.videoId == videoId }) }

/-- `navigateToVideo(videoId)`: select the slot, then when the URL's
current `v` parameter differs from `videoId` fire the SPA navigation
hook `app.onYtNavigate_` (which moves the page to
`watch?v=videoId&<sessionParam>=this.sessionId`), then remove the
upnext and related sections. -/
def navigateToVideo (st : PlayerState) (videoId : String) :
    PlayerState × List Effect :=
  let st1 := selectQueueElement st videoId
  if st.url.videoId = some videoId then
    (st1, [Effect.removeUpnext, Effect.removeRelated])
  else
    ({ st1 with url := { videoId := some videoId, sessionId := st.sessionId } },
     [Effect.navigate videoId, Effect.removeUpnext, Effect.removeRelated])

/-- The position `children.index(current.get(0))` computes in
`playNextVideoInQueue`.  With a selected slot present it is the index
of the first one.  With none, `current.get(0)` is `undefined` and
jQuery's `.index` takes its no-argument branch, returning the position
of the first child among its siblings (`0`) when the queue panel has
children and `-1` when it has none. -/
def selectedIndex (queue : List QueueSlot) : Int :=
  match queue.findIdx? (fun s => s.selected) with
  | some i => (i : Int)
  | none => if queue.isEmpty then -1 else 0

/-- `playNextVideoInQueue()`: compute the index of the selected slot,
return when it is the last index, otherwise navigate to the slot at
`index + 1`. -/
def playNextVideoInQueue (st : PlayerState) : PlayerState × List Effect :=
  let index := selectedIndex st.queue
  if index = (st.queue.length : Int) - 1 then (st, [])
  else
    match st.queue.get? (index + 1).toNat with
    | some next => navigateToVideo st next.video.videoId
    | none => (st, [])

/-- `setAutoplay(autoplay, force)`: return early when the flag already
has the value and `force` is unset; otherwise store the flag, set the
paper-toggle, and send an AUTOPLAY message with the new value. -/
def setAutoplay (st : PlayerState) (autoplay : Bool) (force : Bool) :
    PlayerState × List Effect :=
  if st.autoplay = autoplay ∧ force = false then (st, [])
  else
    ({ st with autoplay := autoplay, autoplayToggle := autoplay },
     [Effect.send Message.AUTOPLAY (Payload.boolVal autoplay)])

/-- `addClients(clients)`: snapshot the socketIds of `this.clients`
once, then push (and render) every incoming client whose socketId is
not in that snapshot, in order. -/
def addClients (st : PlayerState) (newClients : List Client) : PlayerState :=
  let socketIds := st.clients.map (fun c => c.socketId)
  { st with clients :=
      st.clients ++ newClients.filter (fun c => !(socketIds.contains c.socketId)) }

/-- `removeClient(socketId)`: drop the rendered entry and filter the
client out of `this.clients`. -/
def removeClient (st : PlayerState) (socketId : String) : PlayerState :=
  { st with clients := st.clients.filter (fun c => !(c.socketId == socketId)) }

/-- An inbound frame as the handler's decode step sees it: a parsed
`{action, data}` pair with a known action and the payload shape that
action carries, a parsed frame whose action matches no switch case, or
a frame on which `JSON.parse` throws. -/
inductive InboundMsg where
  | play (t : Option ℚ)
  | pause (t : Option ℚ)
  | seek (t : Option ℚ)
  | playVideo (videoId : String)
  | queueMsg (video : Option Video) (videos : List Video)
  | addToQueueMsg (v : Video)
  | removeFromQueueMsg (v : Video)
  | autoplayMsg (b : Bool)
  | clientsMsg (cs : List Client)
  | clientConnect (c : Client)
  | clientDisconnect (socketId : String)
  | unknownAction
  | malformed
deriving DecidableEq

/-- The switch statement of `onWsMessage` (reached after `JSON.parse`
succeeded and `getPlayerState()` returned). -/
def onWsCommand (st : PlayerState) (m : InboundMsg) : PlayerState × List Effect :=
  match m with
  | InboundMsg.play t =>
      (st, syncPlayerTime t st.currentTime 1 ++
        (if st.playerState = YTPlayerState.PAUSED then [Effect.playVideoCmd] else []))
  | InboundMsg.pause t =>
      (st, syncPlayerTime t st.currentTime 1 ++
        (if st.playerState = YTPlayerState.PLAYING then [Effect.pauseVideoCmd] else []))
  | InboundMsg.seek t => (st, [Effect.seekTo t])
  | InboundMsg.autoplayMsg b => setAutoplay st b false
  | InboundMsg.playVideo videoId => navigateToVideo st videoId
  | InboundMsg.queueMsg video videos => (populateQueue st video videos, [])
  | InboundMsg.addToQueueMsg v => (addToQueue st v false, [])
  | InboundMsg.removeFromQueueMsg v => (removeFromQueue st v, [])
  | InboundMsg.clientsMsg cs => (addClients st cs, [])
  | InboundMsg.clientConnect c => (addClients st [c], [])
  | InboundMsg.clientDisconnect sid => (removeClient st sid, [])
  | InboundMsg.unknownAction => (st, [])
  | InboundMsg.malformed => (st, [Effect.logError])

/-- `onWsMessage(message)`: the whole body runs inside try/catch, so no
exception escapes.  A frame on which `JSON.parse` throws is only
logged.  Otherwise `this.ytPlayer.getPlayerState()` runs next; on a
null player it throws and the catch logs.  Then the switch runs. -/
def onWsMessage (st : PlayerState) (m : InboundMsg) : PlayerState × List Effect :=
  match m with
  | InboundMsg.malformed => (st, [Effect.logError])
  | m =>
      if st.ytPlayerCreated then onWsCommand st m
      else (st, [Effect.logError])

/-- `onStateChange(state)`: broadcast PLAY/PAUSE with the current time;
on ENDED advance the queue when autoplay is on. -/
def onStateChange (st : PlayerState) (state : YTPlayerState) :
    PlayerState × List Effect :=
  match state with
  | YTPlayerState.PLAYING =>
      sendWsMessage st Message.PLAY (Payload.secondsStr (some st.currentTime))
  | YTPlayerState.PAUSED =>
      sendWsMessage st Message.PAUSE (Payload.secondsStr (some st.currentTime))
  | YTPlayerState.ENDED =>
      if st.autoplay then playNextVideoInQueue st else (st, [])
  | _ => (st, [])

/-- `onUrlChange(o, n)`: when the old location had the session
parameter and the new one lost it, restore by rewriting
`window.location.search` and return; otherwise, when the new location
has a `v` parameter, send PLAY_VIDEO with it. -/
def onUrlChange (st : PlayerState) (o n : UrlObservation) :
    PlayerState × List Effect :=
  if o.sessionId.isSome ∧ n.sessionId = none then
    (st, [Effect.setLocationSearch])
  else
    match n.videoId with
    | some vid => sendWsMessage st Message.PLAY_VIDEO (Payload.videoIdStr vid)
    | none => (st, [])

/-- Modelled from the spec: `ScheduleUtil.startUrlChangeSchedule`
(util/schedule, not under src/) is a periodic task that compares the
previously observed window location with the current one and invokes
the callback — here `onUrlChange` — on change.  One poll tick. -/
def urlChangePollTick (st : PlayerState) (lastUrl : UrlObservation) :
    PlayerState × List Effect :=
  if lastUrl = st.url then (st, []) else onUrlChange st lastUrl st.url

/-- Processing one inbound frame followed by the next tick of the
URL-change schedule (the poll compares the location from before the
frame with the one after it). -/
def handleThenUrlPoll (st : PlayerState) (m : InboundMsg) :
    PlayerState × List Effect :=
  let lastUrl := st.url
  let r1 := onWsMessage st m
  let r2 := urlChangePollTick r1.1 lastUrl
  (r2.1, r1.2 ++ r2.2)

/-- `create(sessionId)`: return immediately when `this.ytPlayer` is
already non-null; otherwise grab the player hook, register the
state-change listener, inject the queue and room-info shells, start
the three schedules, and connect the websocket (which stores
`this.sessionId`). -/
def create (st : PlayerState) (sessionId : String) :
    PlayerState × List Effect :=
  if st.ytPlayerCreated then (st, [])
  else
    ({ st with ytPlayerCreated := true, sessionId := some sessionId },
     [Effect.getPlayerHook, Effect.addStateChangeListener,
      Effect.injectQueueShell, Effect.injectRoomInfoShell,
      Effect.startSeekSchedule, Effect.startUrlChangeSchedule,
      Effect.startQueueStoreSchedule, Effect.connectWs sessionId])

/-! ## Concrete fixtures used by witnesses and counterexamples -/

def vidA : Video := { videoId := "A", title := "tA", byline := "bA" }

def vidB : Video := { videoId := "B", title := "tB", byline := "bB" }

def vidC : Video := { videoId := "C", title := "tC", byline := "bC" }

/-- A representative running state: player created, session joined,
watching video "A" at position 10s, autoplay on, empty queue/roster. -/
def exBase : PlayerState :=
  { ytPlayerCreated := true
    sessionId := some "s"
    playerState := YTPlayerState.PLAYING
    currentTime := 10
    url := { videoId := some "A", sessionId := some "s" }
    autoplay := true
    autoplayToggle := true
    queue := []
    clients := [] }

/-! ## C1: margin reconciliation on inbound PLAY -/

/-- C1: for an inbound PLAY(t) frame the local player seeks to t if and
only if the absolute difference between the local position p and t is
strictly greater than the 1.0-second margin; in particular at
distance exactly 1.0 no seek is issued. -/
theorem inbound_play_seeks_iff_margin (st : PlayerState) (t : ℚ)
    (h : st.ytPlayerCreated = true) :
    Effect.seekTo (some t) ∈ (onWsMessage st (InboundMsg.play (some t))).2 ↔
      |st.currentTime - t| > 1 := by
  rw [abs_sub_comm]
  simp only [onWsMessage, h, if_true, onWsCommand, syncPlayerTime]
  by_cases h1 : |t - st.currentTime| > 1 <;>
    by_cases h2 : st.playerState = YTPlayerState.PAUSED <;>
      simp [h1, h2]

theorem inbound_play_seeks_iff_margin_witness :
    Effect.seekTo (some 20) ∈ (onWsMessage exBase (InboundMsg.play (some 20))).2 ∧
    Effect.seekTo (some 11) ∉ (onWsMessage exBase (InboundMsg.play (some 11))).2 := by
  constructor
  · exact (inbound_play_seeks_iff_margin exBase 20 rfl).mpr (by norm_num [exBase])
  · intro hmem
    have := (inbound_play_seeks_iff_margin exBase 11 rfl).mp hmem
    norm_num [exBase] at this

/-! ## C2: queue requests only emit, never mutate -/

/-- C2: requestAdd and requestRemove only emit the outbound
ADD_TO_QUEUE / REMOVE_FROM_QUEUE frame and leave the whole player
state (in particular the queue) unchanged; the queue is mutated by the
inbound confirmation handler instead. -/
theorem queue_requests_only_emit (st : PlayerState) (v : Video) (vid : String)
    (h : st.ytPlayerCreated = true) :
    sendWsRequestToAddToQueue st v
        = (st, [Effect.send Message.ADD_TO_QUEUE (Payload.videoVal v)]) ∧
    queueElementDeleteHandler st vid
        = (st, [Effect.send Message.REMOVE_FROM_QUEUE (Payload.videoIdStr vid)]) ∧
    (onWsMessage st (InboundMsg.addToQueueMsg v)).1.queue
        = st.queue ++ [{ video := v, selected := false }] ∧
    (onWsMessage st (InboundMsg.removeFromQueueMsg v)).1.queue
        = st.queue.filter (fun s => !(s.video.videoId == v.videoId)) := by
  refine ⟨rfl, rfl, ?_, ?_⟩ <;>
    simp [onWsMessage, h, onWsCommand, addToQueue, removeFromQueue]

theorem queue_requests_only_emit_witness :
    (sendWsRequestToAddToQueue exBase vidA).1 = exBase ∧
    (onWsMessage exBase (InboundMsg.addToQueueMsg vidA)).1.queue
      = [{ video := vidA, selected := false }] := by
  have h := queue_requests_only_emit exBase vidA "A" rfl
  refine ⟨by rw [h.1], by rw [h.2.2.1]; rfl⟩

/-! ## C3: fail-soft handling of bad frames -/

/-- A state in which the external player is paused. -/
def pausedState : PlayerState := { exBase with playerState := YTPlayerState.PAUSED }

/-- C3 counterexample: an inbound PLAY frame whose payload does not
parse as a number, received while the player is paused, is not
discarded as a no-op: the handler still issues a play command to the
external player. -/
theorem nan_play_not_noop :
    onWsMessage pausedState (InboundMsg.play none)
      = (pausedState, [Effect.playVideoCmd]) ∧
    [Effect.playVideoCmd] ≠ ([] : List Effect) := by
  exact ⟨rfl, by simp⟩

/-- C3 amended: the handler is a total function (the try/catch lets no
exception escape); an unparseable frame changes no state and only logs
the error; an unknown action changes no state and has no effect; a
non-numeric payload on PLAY or PAUSE leaves the state unchanged and
never seeks the player to any number, though the play/pause command
gated on the player state is still issued; a non-numeric payload on
SEEK leaves the state unchanged and forwards the unparsed value to the
seekTo call. -/
theorem failsoft_amended (st : PlayerState) (h : st.ytPlayerCreated = true) :
    onWsMessage st InboundMsg.malformed = (st, [Effect.logError]) ∧
    onWsMessage st InboundMsg.unknownAction = (st, []) ∧
    (onWsMessage st (InboundMsg.play none)).1 = st ∧
    (∀ q : ℚ, Effect.seekTo (some q) ∉ (onWsMessage st (InboundMsg.play none)).2) ∧
    (onWsMessage st (InboundMsg.pause none)).1 = st ∧
    (∀ q : ℚ, Effect.seekTo (some q) ∉ (onWsMessage st (InboundMsg.pause none)).2) ∧
    onWsMessage st (InboundMsg.seek none) = (st, [Effect.seekTo none]) := by
  refine ⟨rfl, ?_, ?_, ?_, ?_, ?_, ?_⟩
  · simp [onWsMessage, h, onWsCommand]
  · simp [onWsMessage, h, onWsCommand, syncPlayerTime]
  · intro q
    by_cases h2 : st.playerState = YTPlayerState.PAUSED <;>
      simp [onWsMessage, h, onWsCommand, syncPlayerTime, h2]
  · simp [onWsMessage, h, onWsCommand, syncPlayerTime]
  · intro q
    by_cases h2 : st.playerState = YTPlayerState.PLAYING <;>
      simp [onWsMessage, h, onWsCommand, syncPlayerTime, h2]
  · simp [onWsMessage, h, onWsCommand]

theorem failsoft_amended_witness :
    onWsMessage exBase InboundMsg.malformed = (exBase, [Effect.logError]) ∧
    onWsMessage exBase InboundMsg.unknownAction = (exBase, []) := by
  have h := failsoft_amended exBase rfl
  exact ⟨h.1, h.2.1⟩

/-! ## C4: inbound AUTOPLAY handling -/

/-- C4 counterexample: an inbound AUTOPLAY(false) while the local flag
is true does emit an outbound AUTOPLAY message (setAutoplay re-sends
whenever the flag value changes). -/
theorem inbound_autoplay_reemits :
    (onWsMessage exBase (InboundMsg.autoplayMsg false)).2
      = [Effect.send Message.AUTOPLAY (Payload.boolVal false)] := by
  rfl

/-- C4 amended: on inbound AUTOPLAY(value), when value equals the local
flag nothing happens at all (no state change, no message); when it
differs the flag and the bound toggle are set to value and an outbound
AUTOPLAY(value) message is also emitted. -/
theorem inbound_autoplay_amended (st : PlayerState) (b : Bool)
    (h : st.ytPlayerCreated = true) :
    (st.autoplay = b → onWsMessage st (InboundMsg.autoplayMsg b) = (st, [])) ∧
    (st.autoplay ≠ b →
      (onWsMessage st (InboundMsg.autoplayMsg b)).1.autoplay = b ∧
      (onWsMessage st (InboundMsg.autoplayMsg b)).1.autoplayToggle = b ∧
      (onWsMessage st (InboundMsg.autoplayMsg b)).2
        = [Effect.send Message.AUTOPLAY (Payload.boolVal b)]) := by
  constructor
  · intro hb; simp [onWsMessage, h, onWsCommand, setAutoplay, hb]
  · intro hb; simp [onWsMessage, h, onWsCommand, setAutoplay, hb]

theorem inbound_autoplay_amended_witness :
    (onWsMessage exBase (InboundMsg.autoplayMsg false)).1.autoplay = false ∧
    (onWsMessage exBase (InboundMsg.autoplayMsg false)).1.autoplayToggle = false := by
  have h := inbound_autoplay_amended exBase false rfl
  exact ⟨(h.2 (by simp [exBase])).1, (h.2 (by simp [exBase])).2.1⟩

/-! ## C5: inbound PLAY_VIDEO and the URL-change feedback path -/

/-- C5 counterexample: processing an inbound PLAY_VIDEO("B") while
watching "A" does cause an outbound PLAY_VIDEO("B"): the navigation
changes the URL and the next URL-change poll re-emits it. -/
theorem inbound_play_video_feedback :
    Effect.send Message.PLAY_VIDEO (Payload.videoIdStr "B")
      ∈ (handleThenUrlPoll exBase (InboundMsg.playVideo "B")).2 := by
  decide

/-- C5 amended: the PLAY_VIDEO handler itself emits no outbound frame
at all; but whenever the inbound videoId differs from the current URL
video (so navigation occurs) and the session id is set, the URL-change
poll that follows emits an outbound PLAY_VIDEO for that same
videoId. -/
theorem inbound_play_video_amended (st : PlayerState) (vid : String) :
    (∀ p, Effect.send Message.PLAY_VIDEO p ∉
      (onWsMessage st (InboundMsg.playVideo vid)).2) ∧
    (st.ytPlayerCreated = true → st.url.videoId ≠ some vid →
      st.sessionId.isSome = true →
      (handleThenUrlPoll st (InboundMsg.playVideo vid)).2
        = [Effect.navigate vid, Effect.removeUpnext, Effect.removeRelated,
           Effect.send Message.PLAY_VIDEO (Payload.videoIdStr vid)]) := by
  constructor
  · intro p
    by_cases h : st.ytPlayerCreated
    · by_cases h2 : st.url.videoId = some vid <;>
        simp [onWsMessage, h, onWsCommand, navigateToVideo, h2]
    · simp [onWsMessage, h]
  · intro h h2 h3
    obtain ⟨sid, hsid⟩ := Option.isSome_iff_exists.mp h3
    have hne : st.url ≠ ({ videoId := some vid, sessionId := some sid } :
        UrlObservation) := by
      intro he
      exact h2 (by rw [he])
    simp [handleThenUrlPoll, onWsMessage, h, onWsCommand, navigateToVideo, h2,
      urlChangePollTick, hne, onUrlChange, hsid, sendWsMessage]

theorem inbound_play_video_amended_witness :
    (handleThenUrlPoll exBase (InboundMsg.playVideo "B")).2
      = [Effect.navigate "B", Effect.removeUpnext, Effect.removeRelated,
         Effect.send Message.PLAY_VIDEO (Payload.videoIdStr "B")] := by
  have h := inbound_play_video_amended exBase "B"
  exact h.2 rfl (by simp [exBase]) rfl

/-! ## C6: QUEUE snapshots replace the queue wholesale -/

/-- The rendered slots a snapshot produces, in order. -/
def snapshotSlots (video : Option Video) (videos : List Video) : List QueueSlot :=
  videos.map (fun v => { video := v, selected := snapshotSelected video v })

/-- Folding `addToQueue` over a list appends the rendered slots, in
order, and touches nothing else. -/
lemma foldl_addToQueue_queue (video : Option Video) (videos : List Video)
    (st0 : PlayerState) :
    videos.foldl (fun acc v => addToQueue acc v (snapshotSelected video v)) st0
      = { st0 with queue := st0.queue ++ snapshotSlots video videos } := by
  induction videos generalizing st0 with
  | nil => simp [snapshotSlots]
  | cons v vs ih =>
    rw [List.foldl_cons, ih]
    simp [snapshotSlots, addToQueue]

/-- A QUEUE snapshot yields exactly the rendered snapshot entries,
whatever the queue held before. -/
lemma populateQueue_eq (st : PlayerState) (video : Option Video)
    (videos : List Video) :
    populateQueue st video videos
      = { st with queue := snapshotSlots video videos } := by
  simp [populateQueue, foldl_addToQueue_queue]

/-- C6: applying a QUEUE snapshot replaces the queue wholesale — the
resulting queue depends only on the snapshot content and not on any
prior queue state, applying the same snapshot twice equals applying it
once, and a snapshot whose selected video is null or absent from the
list marks no slot selected. -/
theorem queue_snapshot_properties (st st2 : PlayerState) (video : Option Video)
    (videos : List Video) :
    (populateQueue st video videos).queue = (populateQueue st2 video videos).queue ∧
    populateQueue (populateQueue st video videos) video videos
      = populateQueue st video videos ∧
    (video = none →
      ∀ s ∈ (populateQueue st video videos).queue, s.selected = false) ∧
    (∀ sv, video = some sv → sv.videoId ∉ videos.map Video.videoId →
      ∀ s ∈ (populateQueue st video videos).queue, s.selected = false) := by
  refine ⟨by simp [populateQueue_eq], by simp [populateQueue_eq], ?_, ?_⟩
  · intro hv s hs
    subst hv
    simp [populateQueue_eq, snapshotSlots, List.mem_map] at hs
    obtain ⟨v, _, rfl⟩ := hs
    simp [snapshotSelected]
  · intro sv hv hnot s hs
    subst hv
    simp [populateQueue_eq, snapshotSlots, List.mem_map] at hs
    obtain ⟨v, hvmem, rfl⟩ := hs
    simp only [snapshotSelected, beq_eq_false_iff_ne, ne_eq]
    intro he
    exact hnot (he ▸ List.mem_map_of_mem Video.videoId hvmem)

theorem queue_snapshot_properties_witness :
    populateQueue (populateQueue exBase none [vidA]) none [vidA]
      = populateQueue exBase none [vidA] ∧
    ∀ s ∈ (populateQueue exBase none [vidA]).queue, s.selected = false := by
  have h := queue_snapshot_properties exBase exBase none [vidA]
  exact ⟨h.2.1, h.2.2.1 rfl⟩

/-! ## C7: advancing to the next queue slot -/

/-- A state with two queued slots and no selected attribute. -/
def twoUnselected : PlayerState := { exBase with
  queue := [{ video := vidA, selected := false },
            { video := vidB, selected := false }] }

/-- C7 counterexample: with no slot selected and two slots queued,
playNextVideoInQueue does not do nothing — it navigates to the second
slot (jQuery .index of an absent element falls back to the first
child's position, 0). -/
theorem advance_not_found_not_none :
    playNextVideoInQueue twoUnselected = navigateToVideo twoUnselected "B" ∧
    playNextVideoInQueue twoUnselected ≠ (twoUnselected, []) := by
  refine ⟨by decide, by decide⟩

/-- C7 amended: playNextVideoInQueue does nothing when the queue is
empty, when the first selected slot is the last slot, or when no slot
is selected and the queue has exactly one slot; when no slot is
selected and the queue has two or more slots it navigates to the
second slot; when the selected slot has a successor it navigates to
that immediate successor. -/
theorem advance_cases (st : PlayerState) :
    (st.queue = [] → playNextVideoInQueue st = (st, [])) ∧
    (∀ i, st.queue.findIdx? (fun s => s.selected) = some i →
      i + 1 = st.queue.length → playNextVideoInQueue st = (st, [])) ∧
    (st.queue.findIdx? (fun s => s.selected) = none → st.queue.length = 1 →
      playNextVideoInQueue st = (st, [])) ∧
    (∀ s, st.queue.findIdx? (fun x => x.selected) = none →
      st.queue[1]? = some s → 2 ≤ st.queue.length →
      playNextVideoInQueue st = navigateToVideo st s.video.videoId) ∧
    (∀ i s, st.queue.findIdx? (fun x => x.selected) = some i →
      i + 1 < st.queue.length → st.queue[i + 1]? = some s →
      playNextVideoInQueue st = navigateToVideo st s.video.videoId) := by
  refine ⟨?_, ?_, ?_, ?_, ?_⟩
  · intro hq
    simp [playNextVideoInQueue, selectedIndex, hq]
  · intro i hidx hlen
    have hc : (i : Int) = (st.queue.length : Int) - 1 := by omega
    simp [playNextVideoInQueue, selectedIndex, hidx, hc]
  · intro hidx hlen
    have hne : st.queue.isEmpty = false := by
      cases hq : st.queue with
      | nil => rw [hq] at hlen; simp at hlen
      | cons a l => rfl
    simp [playNextVideoInQueue, selectedIndex, hidx, hne, hlen]
  · intro s hidx hget hlen
    have hne : st.queue.isEmpty = false := by
      cases hq : st.queue with
      | nil => rw [hq] at hlen; simp at hlen
      | cons a l => rfl
    have hc : ¬((0 : Int) = (st.queue.length : Int) - 1) := by omega
    simp [playNextVideoInQueue, selectedIndex, hidx, hne, hc, hget]
  · intro i s hidx hilen hget
    have hc : ¬((i : Int) = (st.queue.length : Int) - 1) := by omega
    have ht : ((i : Int) + 1).toNat = i + 1 := by omega
    simp [playNextVideoInQueue, selectedIndex, hidx, hc, ht, hget]

/-- A state with the first of two slots selected. -/
def oneSelectedOfTwo : PlayerState := { exBase with
  queue := [{ video := vidA, selected := true },
            { video := vidB, selected := false }] }

theorem advance_cases_witness :
    playNextVideoInQueue oneSelectedOfTwo
      = navigateToVideo oneSelectedOfTwo "B" := by
  have h := advance_cases oneSelectedOfTwo
  exact h.2.2.2.2 0 { video := vidB, selected := false } (by decide) (by decide) (by decide)

/-! ## C8: REMOVE_FROM_QUEUE semantics -/

/-- A state whose queue holds two slots with the same videoId "A". -/
def dupQueue : PlayerState := { exBase with
  queue := [{ video := vidA, selected := false },
            { video := vidA, selected := false }] }

/-- C8 counterexample: removing videoId "A" from a queue holding two
slots with videoId "A" removes both of them, not exactly one — the
jQuery selector matches every slot and remove deletes them all. -/
theorem remove_removes_all :
    (removeFromQueue dupQueue vidA).queue = [] ∧
    ([] : List QueueSlot) ≠ [{ video := vidA, selected := false }] := by
  exact ⟨rfl, by simp⟩

/-- C8 amended: applying REMOVE_FROM_QUEUE removes every slot whose
videoId matches; the surviving slots are exactly the non-matching ones
in their original order, and removing an id with no matching slot
leaves the queue unchanged. -/
theorem remove_all_matching (st : PlayerState) (v : Video) :
    (∀ s ∈ (removeFromQueue st v).queue, s.video.videoId ≠ v.videoId) ∧
    (removeFromQueue st v).queue.Sublist st.queue ∧
    (∀ s ∈ st.queue, s.video.videoId ≠ v.videoId →
      s ∈ (removeFromQueue st v).queue) ∧
    ((∀ s ∈ st.queue, s.video.videoId ≠ v.videoId) →
      (removeFromQueue st v).queue = st.queue) := by
  refine ⟨?_, ?_, ?_, ?_⟩
  · intro s hs
    simp [removeFromQueue, List.mem_filter] at hs
    exact hs.2
  · exact List.filter_sublist st.queue
  · intro s hs hne
    simp [removeFromQueue, List.mem_filter]
    exact ⟨hs, hne⟩
  · intro hall
    simp only [removeFromQueue]
    rw [List.filter_eq_self.mpr]
    intro s hs
    simp [hall s hs]

theorem remove_all_matching_witness :
    (removeFromQueue oneSelectedOfTwo vidC).queue = oneSelectedOfTwo.queue := by
  have h := remove_all_matching oneSelectedOfTwo vidC
  exact h.2.2.2 (by decide)

/-! ## C9: roster idempotence on CLIENT_CONNECT -/

/-- Adding one client whose socketId is already in the roster changes
nothing: the snapshot of socketIds already contains it, so the filter
drops the client. -/
lemma addClients_mem_noop (st : PlayerState) (c : Client)
    (hmem : c.socketId ∈ st.clients.map (fun x => x.socketId)) :
    addClients st [c] = st := by
  have hex : ∃ a ∈ st.clients, a.socketId = c.socketId := by
    simpa using hmem
  simp [addClients, hex]

/-- C9: an inbound CLIENT_CONNECT for a socketId already present in the
roster is a no-op — the roster gains no duplicate entry and the whole
state (hence the roster size) is unchanged. -/
theorem client_connect_idempotent (st : PlayerState) (c : Client)
    (h : st.ytPlayerCreated = true)
    (hmem : c.socketId ∈ st.clients.map (fun x => x.socketId)) :
    onWsMessage st (InboundMsg.clientConnect c) = (st, []) := by
  simp [onWsMessage, h, onWsCommand, addClients_mem_noop st c hmem]

/-- A state with one roster entry of socketId "x". -/
def rosterState : PlayerState := { exBase with
  clients := [{ socketId := "x", promoted := false }] }

theorem client_connect_idempotent_witness :
    onWsMessage rosterState
        (InboundMsg.clientConnect { socketId := "x", promoted := true })
      = (rosterState, []) := by
  exact client_connect_idempotent rosterState
    { socketId := "x", promoted := true } rfl (by decide)

/-! ## C10: create is a no-op once the player exists -/

/-- C10: calling create again after a player has been created returns
immediately: no effect is produced (no player construction, UI
injection, schedule start, or connection) and the state is unchanged;
in particular a second create after any first create is a no-op. -/
theorem create_twice_noop (st : PlayerState) (s1 s2 : String) :
    create (create st s1).1 s2 = ((create st s1).1, []) ∧
    (st.ytPlayerCreated = true → create st s2 = (st, [])) := by
  constructor
  · by_cases h : st.ytPlayerCreated <;> simp [create, h]
  · intro h
    simp [create, h]

theorem create_twice_noop_witness :
    create exBase "s2" = (exBase, []) := by
  exact (create_twice_noop exBase "s1" "s2").2 rfl
